import Mathlib

/-!
Dispatch layer of the PKCS #11 provider (`src/pkcs11.c`).

A shallow embedding of the cryptoki entry points of `pkcs11.c`: the three
call-wrapper macros, the three authentication predicates, `TRACE_RET`, and
the body of every `C_*` function.

The functions the dispatch layer calls but does not define (`slot_get_token`,
`session_lookup`, `session_ctx_state_get`, `check_is_init`, and the internal
operations such as `digest_init`) are parameters, collected in `Env`.
Every entry point yields the status it hands back, the ordered list of the
calls it made, and the state it leaves behind.  `TRACE_CALL` and `LOGV` only
write to the diagnostic log and are left out.
-/

namespace Pkcs11

/-! ## Scalar types and constants -/

/-- The type `CK_RV` of status codes (an `unsigned long`; only compared). -/
abbrev CK_RV := Nat
/-- The type `CK_STATE` of session states (an `unsigned long`; only compared). -/
abbrev CK_STATE := Nat
/-- The type `CK_SLOT_ID`. -/
abbrev CK_SLOT_ID := Nat
/-- The type `CK_SESSION_HANDLE`. -/
abbrev CK_SESSION_HANDLE := Nat
/-- A `token *`: the identity of a token. -/
abbrev Tok := Nat
/-- A `session_ctx *`: the identity of a session context. -/
abbrev Ctx := Nat
/-- The arguments an entry point forwards untouched (`__VA_ARGS__`): pointers
and lengths, as machine words. -/
abbrev Args := List Nat

/-- Modelled from the spec: the status code for success. `pkcs11.h` is not
among the sources; the value is the one of the PKCS #11 standard header. -/
def CKR_OK : CK_RV := 0x0
/-- Modelled from the spec: "invalid slot" (`pkcs11.h` is not among the
sources; standard value). -/
def CKR_SLOT_ID_INVALID : CK_RV := 0x3
/-- Modelled from the spec: the generic internal failure (`pkcs11.h` is not
among the sources; standard value). -/
def CKR_GENERAL_ERROR : CK_RV := 0x5
/-- Modelled from the spec: "operation not supported" (`pkcs11.h` is not
among the sources; standard value). -/
def CKR_FUNCTION_NOT_SUPPORTED : CK_RV := 0x54
/-- Modelled from the spec: "invalid session handle" (`pkcs11.h` is not among
the sources; standard value). -/
def CKR_SESSION_HANDLE_INVALID : CK_RV := 0xB3
/-- Modelled from the spec: "user not logged in" (`pkcs11.h` is not among the
sources; standard value). -/
def CKR_USER_NOT_LOGGED_IN : CK_RV := 0x101

/-- Modelled from the spec: `PUBLIC_SESSION` on a read-only session
(`pkcs11.h` is not among the sources; standard value). -/
def CKS_RO_PUBLIC_SESSION : CK_STATE := 0
/-- Modelled from the spec: `USER_RO` (`pkcs11.h` is not among the sources;
standard value). -/
def CKS_RO_USER_FUNCTIONS : CK_STATE := 1
/-- Modelled from the spec: `PUBLIC_SESSION` on a read-write session
(`pkcs11.h` is not among the sources; standard value). -/
def CKS_RW_PUBLIC_SESSION : CK_STATE := 2
/-- Modelled from the spec: `USER_RW` (`pkcs11.h` is not among the sources;
standard value). -/
def CKS_RW_USER_FUNCTIONS : CK_STATE := 3
/-- Modelled from the spec: `SO_RW` (`pkcs11.h` is not among the sources;
standard value). -/
def CKS_RW_SO_FUNCTIONS : CK_STATE := 4

/-! ## Names of the functions involved -/

/-- The internal functions `pkcs11.c` calls into (declared in `general.h`,
`slot.h`, `token.h`, `session.h`, `object.h`, `encrypt.h`, `digest.h`,
`sign.h`, `key.h`, `random.h`). -/
inductive Internal where
  | general_init | general_finalize | general_get_info | general_get_func_list
  | slot_get_list | slot_get_info | slot_mechanism_list_get | slot_mechanism_info_get
  | token_get_info
  | session_open | session_close | session_closeall
  | session_get_info | session_login | session_logout
  | object_get_attributes | object_find_init | object_find | object_find_final
  | encrypt_init | encrypt_oneshot | encrypt_update | encrypt_final
  | decrypt_init | decrypt_oneshot | decrypt_update | decrypt_final
  | digest_init | digest_oneshot | digest_update | digest_final
  | sign_init | sign | sign_update | sign_final
  | verify_init | verify | verify_update | verify_final
  | key_gen | seed_random | random_get
  deriving DecidableEq, Repr

/-- The authentication predicates defined in `pkcs11.c`. -/
inductive AuthFn where
  | auth_min_ro_pub | auth_min_ro_user | auth_any_logged_in
  deriving DecidableEq, Repr

/-- The cryptoki entry points defined in `pkcs11.c`. -/
inductive EntryPoint where
  | C_Initialize | C_Finalize | C_GetInfo | C_GetFunctionList
  | C_GetSlotList | C_GetSlotInfo | C_GetTokenInfo | C_WaitForSlotEvent
  | C_GetMechanismList | C_GetMechanismInfo
  | C_InitToken | C_InitPIN | C_SetPIN
  | C_OpenSession | C_CloseSession | C_CloseAllSessions | C_GetSessionInfo
  | C_GetOperationState | C_SetOperationState
  | C_Login | C_Logout
  | C_CreateObject | C_CopyObject | C_DestroyObject | C_GetObjectSize
  | C_GetAttributeValue | C_SetAttributeValue
  | C_FindObjectsInit | C_FindObjects | C_FindObjectsFinal
  | C_EncryptInit | C_Encrypt | C_EncryptUpdate | C_EncryptFinal
  | C_DecryptInit | C_Decrypt | C_DecryptUpdate | C_DecryptFinal
  | C_DigestInit | C_Digest | C_DigestUpdate | C_DigestKey | C_DigestFinal
  | C_SignInit | C_Sign | C_SignUpdate | C_SignFinal
  | C_SignRecoverInit | C_SignRecover
  | C_VerifyInit | C_Verify | C_VerifyUpdate | C_VerifyFinal
  | C_VerifyRecoverInit | C_VerifyRecover
  | C_DigestEncryptUpdate | C_DecryptDigestUpdate
  | C_SignEncryptUpdate | C_DecryptVerifyUpdate
  | C_GenerateKey | C_GenerateKeyPair
  | C_WrapKey | C_UnwrapKey | C_DeriveKey
  | C_SeedRandom | C_GenerateRandom
  | C_GetFunctionStatus | C_CancelFunction
  deriving DecidableEq, Repr

/-! ## State, environment, observable calls -/

/-- The state an entry point runs in: which token locks are held, and
everything else (`st`: the token registry, the session table, the tokens). -/
structure World (S : Type) where
  locked : Tok → Bool
  st : S

/-- The functions of the library that `pkcs11.c` uses without defining them.

* `check_is_init`: the initialisation check that opens every wrapper.  It is
  defined outside `pkcs11.c`, possibly as a text macro, so it may end the
  calling function: `none` when the call goes on, `some rv` when it returns
  `rv` at once.
* `slot_get_token`: the Token Registry, a pure lookup.
* `session_lookup`: the Session Table lookup; the status and the two
  out-parameters `t` and `ctx`.
* `lookup_locks`: whether a successful `session_lookup` leaves the token it
  found locked (the by-session wrappers only ever unlock).
* `session_ctx_state_get`: the authentication state of a session context.
* `userfunc`: the internal operations called with a token (and, for the
  `KEEP_CTX` wrapper, the session context).
* `direct`: the internal operations called with the caller's arguments only.
-/
structure Env (S : Type) where
  check_is_init : S → Option CK_RV
  slot_get_token : CK_SLOT_ID → S → Option Tok
  session_lookup : CK_SESSION_HANDLE → S → CK_RV × Tok × Ctx
  lookup_locks : Bool
  session_ctx_state_get : Ctx → S → CK_STATE
  userfunc : Internal → Tok → Option Ctx → Args → S → CK_RV × S
  direct : Internal → Args → S → CK_RV × S

/-- The calls an entry point makes, in the order it makes them. -/
inductive Event where
  | check_is_init
  | slot_get_token (slot : CK_SLOT_ID)
  | session_lookup (session : CK_SESSION_HANDLE)
  | authfn (a : AuthFn) (ctx : Ctx)
  | token_lock (t : Tok)
  | token_unlock (t : Tok)
  | userfunc (f : Internal) (t : Tok) (ctx : Option Ctx) (args : Args)
  | direct (f : Internal) (args : Args)
  deriving DecidableEq, Repr

/-- How a call of an entry point ends: it returns a status, or it stops at
the `assert(0)` of `TRACE_RET`. -/
inductive Outcome where
  | ret (rv : CK_RV)
  | assert_fail
  deriving DecidableEq, Repr

/-- What a wrapper macro leaves to the function it is expanded in: a `return`
out of that function, or the variable `rv` for the statement that follows. -/
inductive Flow where
  | returned (rv : CK_RV)
  | fallthrough (rv : CK_RV)
  deriving DecidableEq, Repr

/-- The effect of a macro expansion: control flow, calls made, final state. -/
structure Step (S : Type) where
  flow : Flow
  trace : List Event
  world : World S

/-- The effect of an entry point: outcome, calls made, final state. -/
structure Result (S : Type) where
  out : Outcome
  trace : List Event
  world : World S

/-- Modelled from the spec: `token_lock` (`token.c` is not among the sources)
takes the exclusive lock of the token. -/
def token_lock {S : Type} (t : Tok) (w : World S) : World S :=
  { w with locked := fun x => if x = t then true else w.locked x }

/-- Modelled from the spec: `token_unlock` (`token.c` is not among the
sources) releases the exclusive lock of the token. -/
def token_unlock {S : Type} (t : Tok) (w : World S) : World S :=
  { w with locked := fun x => if x = t then false else w.locked x }

/-! ## `TRACE_RET` and the authentication predicates -/

/-- The macro `TRACE_RET(rv)`: when the status is `CKR_FUNCTION_NOT_SUPPORTED`
it runs `assert(0)`, then it returns the status.  `ndebug` tells whether the
file is compiled with `NDEBUG`, in which case `assert` expands to nothing;
otherwise `assert(0)` aborts and the function does not return. -/
def TRACE_RET (ndebug : Bool) (rv : CK_RV) : Outcome :=
  if rv = CKR_FUNCTION_NOT_SUPPORTED then
    (if ndebug then Outcome.ret rv else Outcome.assert_fail)
  else Outcome.ret rv

/-- The function `auth_min_ro_pub`: the context is unused. -/
def auth_min_ro_pub {S : Type} (_env : Env S) (_ctx : Ctx) (_s : S) : CK_RV :=
  CKR_OK

/-- The function `auth_min_ro_user`: a `switch` on the session state with two
cases and no default. -/
def auth_min_ro_user {S : Type} (env : Env S) (ctx : Ctx) (s : S) : CK_RV :=
  let state := env.session_ctx_state_get ctx s
  if state = CKS_RO_USER_FUNCTIONS then CKR_OK
  else if state = CKS_RW_USER_FUNCTIONS then CKR_OK
  else CKR_USER_NOT_LOGGED_IN

/-- The function `auth_any_logged_in`: a `switch` on the session state with
three cases and no default. -/
def auth_any_logged_in {S : Type} (env : Env S) (ctx : Ctx) (s : S) : CK_RV :=
  let state := env.session_ctx_state_get ctx s
  if state = CKS_RO_USER_FUNCTIONS then CKR_OK
  else if state = CKS_RW_USER_FUNCTIONS then CKR_OK
  else if state = CKS_RW_SO_FUNCTIONS then CKR_OK
  else CKR_USER_NOT_LOGGED_IN

/-- The predicate a wrapper is instantiated with, applied to a context. -/
def AuthFn.eval {S : Type} (a : AuthFn) (env : Env S) (ctx : Ctx) (s : S) : CK_RV :=
  match a with
  | .auth_min_ro_pub => Pkcs11.auth_min_ro_pub env ctx s
  | .auth_min_ro_user => Pkcs11.auth_min_ro_user env ctx s
  | .auth_any_logged_in => Pkcs11.auth_any_logged_in env ctx s

/-! ## The call-wrapper macros -/

/-- The state after `session_lookup` returned `CKR_OK` with token `t`: the
token is locked when the lookup is one that locks. -/
def after_lookup {S : Type} (env : Env S) (t : Tok) (w : World S) : World S :=
  if env.lookup_locks then token_lock t w else w

/-- The macro `TOKEN_WITH_LOCK_BY_SLOT(userfunc, slot, ...)`. -/
def TOKEN_WITH_LOCK_BY_SLOT {S : Type} (env : Env S) (userfunc : Internal)
    (slot : CK_SLOT_ID) (args : Args) (w : World S) : Step S :=
  match env.check_is_init w.st with
  | some rv => { flow := .returned rv, trace := [.check_is_init], world := w }
  | none =>
    match env.slot_get_token slot w.st with
    | none =>
      { flow := .returned CKR_SLOT_ID_INVALID,
        trace := [.check_is_init, .slot_get_token slot], world := w }
    | some t =>
      let w1 := token_lock t w
      let r := env.userfunc userfunc t none args w1.st
      let w2 : World S := { w1 with st := r.2 }
      { flow := .fallthrough r.1,
        trace := [.check_is_init, .slot_get_token slot, .token_lock t,
                  .userfunc userfunc t none args, .token_unlock t],
        world := token_unlock t w2 }

/-- The two macros `__TOKEN_WITH_LOCK_BY_SESSION(authfn, userfunc, session, ...)`
and `__TOKEN_WITH_LOCK_BY_SESSION_KEEP_CTX(authfn, userfunc, session, ...)`,
which differ in one place: the second hands `ctx` to `userfunc`
(`keep_ctx = true`). -/
def TOKEN_WITH_LOCK_BY_SESSION_gen {S : Type} (env : Env S) (keep_ctx : Bool)
    (authfn : AuthFn) (userfunc : Internal)
    (session : CK_SESSION_HANDLE) (args : Args) (w : World S) : Step S :=
  match env.check_is_init w.st with
  | some rv => { flow := .returned rv, trace := [.check_is_init], world := w }
  | none =>
    let l := env.session_lookup session w.st
    let rv := l.1
    let t := l.2.1
    let ctx := l.2.2
    if rv ≠ CKR_OK then
      { flow := .returned rv,
        trace := [.check_is_init, .session_lookup session], world := w }
    else
      let w1 := after_lookup env t w
      let rv := authfn.eval env ctx w1.st
      if rv ≠ CKR_OK then
        { flow := .returned rv,
          trace := [.check_is_init, .session_lookup session, .authfn authfn ctx,
                    .token_unlock t],
          world := token_unlock t w1 }
      else
        let c : Option Ctx := if keep_ctx then some ctx else none
        let r := env.userfunc userfunc t c args w1.st
        let w2 : World S := { w1 with st := r.2 }
        { flow := .fallthrough r.1,
          trace := [.check_is_init, .session_lookup session, .authfn authfn ctx,
                    .userfunc userfunc t c args, .token_unlock t],
          world := token_unlock t w2 }

/-- The macro `__TOKEN_WITH_LOCK_BY_SESSION`. -/
def TOKEN_WITH_LOCK_BY_SESSION {S : Type} (env : Env S)
    (authfn : AuthFn) (userfunc : Internal)
    (session : CK_SESSION_HANDLE) (args : Args) (w : World S) : Step S :=
  TOKEN_WITH_LOCK_BY_SESSION_gen env false authfn userfunc session args w

/-- The macro `__TOKEN_WITH_LOCK_BY_SESSION_KEEP_CTX`. -/
def TOKEN_WITH_LOCK_BY_SESSION_KEEP_CTX {S : Type} (env : Env S)
    (authfn : AuthFn) (userfunc : Internal)
    (session : CK_SESSION_HANDLE) (args : Args) (w : World S) : Step S :=
  TOKEN_WITH_LOCK_BY_SESSION_gen env true authfn userfunc session args w

/-- The macro `TOKEN_WITH_LOCK_BY_SESSION_PUB_RO`. -/
def TOKEN_WITH_LOCK_BY_SESSION_PUB_RO {S : Type} (env : Env S) (userfunc : Internal)
    (session : CK_SESSION_HANDLE) (args : Args) (w : World S) : Step S :=
  TOKEN_WITH_LOCK_BY_SESSION env .auth_min_ro_pub userfunc session args w

/-- The macro `TOKEN_WITH_LOCK_BY_SESSION_PUB_RO_KEEP_CTX`. -/
def TOKEN_WITH_LOCK_BY_SESSION_PUB_RO_KEEP_CTX {S : Type} (env : Env S)
    (userfunc : Internal)
    (session : CK_SESSION_HANDLE) (args : Args) (w : World S) : Step S :=
  TOKEN_WITH_LOCK_BY_SESSION_KEEP_CTX env .auth_min_ro_pub userfunc session args w

/-- The macro `TOKEN_WITH_LOCK_BY_SESSION_USER_RO`. -/
def TOKEN_WITH_LOCK_BY_SESSION_USER_RO {S : Type} (env : Env S) (userfunc : Internal)
    (session : CK_SESSION_HANDLE) (args : Args) (w : World S) : Step S :=
  TOKEN_WITH_LOCK_BY_SESSION env .auth_min_ro_user userfunc session args w

/-- The macro `TOKEN_WITH_LOCK_BY_SESSION_LOGGED_IN`. -/
def TOKEN_WITH_LOCK_BY_SESSION_LOGGED_IN {S : Type} (env : Env S) (userfunc : Internal)
    (session : CK_SESSION_HANDLE) (args : Args) (w : World S) : Step S :=
  TOKEN_WITH_LOCK_BY_SESSION env .auth_any_logged_in userfunc session args w

/-! ## The entry points -/

/-- A body of the form `TRACE_CALL; TRACE_RET(f(a, ...));`. -/
def direct_call {S : Type} (env : Env S) (ndebug : Bool) (f : Internal)
    (args : Args) (w : World S) : Result S :=
  let r := env.direct f args w.st
  { out := TRACE_RET ndebug r.1, trace := [.direct f args],
    world := { w with st := r.2 } }

/-- A body of the form `TRACE_CALL; TRACE_RET(CKR_FUNCTION_NOT_SUPPORTED);`. -/
def unsupported {S : Type} (ndebug : Bool) (w : World S) : Result S :=
  { out := TRACE_RET ndebug CKR_FUNCTION_NOT_SUPPORTED, trace := [], world := w }

/-- A body of the form
`TRACE_CALL; CK_RV rv = CKR_GENERAL_ERROR; <wrapper macro>; TRACE_RET(rv);`:
a `return` inside the macro leaves the function at once, otherwise the `rv`
the macro assigned goes through `TRACE_RET`. -/
def wrapped {S : Type} (ndebug : Bool) (m : Step S) : Result S :=
  { out := (match m.flow with
      | .returned rv => Outcome.ret rv
      | .fallthrough rv => TRACE_RET ndebug rv),
    trace := m.trace, world := m.world }

/-- The body of each entry point of `pkcs11.c`.  `a` is the first parameter
of the C function (a slot identifier or a session handle for most of them),
`args` are its remaining parameters in order. -/
def run {S : Type} (env : Env S) (ndebug : Bool) (e : EntryPoint)
    (a : Nat) (args : Args) (w : World S) : Result S :=
  match e with
  | .C_Initialize => direct_call env ndebug .general_init (a :: args) w
  | .C_Finalize => direct_call env ndebug .general_finalize (a :: args) w
  | .C_GetInfo => direct_call env ndebug .general_get_info (a :: args) w
  | .C_GetFunctionList => direct_call env ndebug .general_get_func_list (a :: args) w
  | .C_GetSlotList => direct_call env ndebug .slot_get_list (a :: args) w
  | .C_GetSlotInfo => direct_call env ndebug .slot_get_info (a :: args) w
  | .C_GetTokenInfo =>
      wrapped ndebug (TOKEN_WITH_LOCK_BY_SLOT env .token_get_info a args w)
  | .C_WaitForSlotEvent => unsupported ndebug w
  | .C_GetMechanismList => direct_call env ndebug .slot_mechanism_list_get (a :: args) w
  | .C_GetMechanismInfo => direct_call env ndebug .slot_mechanism_info_get (a :: args) w
  | .C_InitToken => unsupported ndebug w
  | .C_InitPIN => unsupported ndebug w
  | .C_SetPIN => unsupported ndebug w
  | .C_OpenSession => direct_call env ndebug .session_open (a :: args) w
  | .C_CloseSession => direct_call env ndebug .session_close (a :: args) w
  | .C_CloseAllSessions => direct_call env ndebug .session_closeall (a :: args) w
  | .C_GetSessionInfo =>
      wrapped ndebug (TOKEN_WITH_LOCK_BY_SESSION_PUB_RO_KEEP_CTX env .session_get_info a args w)
  | .C_GetOperationState => unsupported ndebug w
  | .C_SetOperationState => unsupported ndebug w
  | .C_Login =>
      wrapped ndebug (TOKEN_WITH_LOCK_BY_SESSION_PUB_RO env .session_login a args w)
  | .C_Logout =>
      wrapped ndebug (TOKEN_WITH_LOCK_BY_SESSION_LOGGED_IN env .session_logout a args w)
  | .C_CreateObject => unsupported ndebug w
  | .C_CopyObject => unsupported ndebug w
  | .C_DestroyObject => unsupported ndebug w
  | .C_GetObjectSize => unsupported ndebug w
  | .C_GetAttributeValue =>
      wrapped ndebug (TOKEN_WITH_LOCK_BY_SESSION_PUB_RO env .object_get_attributes a args w)
  | .C_SetAttributeValue => unsupported ndebug w
  | .C_FindObjectsInit =>
      wrapped ndebug (TOKEN_WITH_LOCK_BY_SESSION_PUB_RO env .object_find_init a args w)
  | .C_FindObjects =>
      wrapped ndebug (TOKEN_WITH_LOCK_BY_SESSION_PUB_RO env .object_find a args w)
  | .C_FindObjectsFinal =>
      wrapped ndebug (TOKEN_WITH_LOCK_BY_SESSION_PUB_RO env .object_find_final a args w)
  | .C_EncryptInit =>
      wrapped ndebug (TOKEN_WITH_LOCK_BY_SESSION_USER_RO env .encrypt_init a args w)
  | .C_Encrypt =>
      wrapped ndebug (TOKEN_WITH_LOCK_BY_SESSION_USER_RO env .encrypt_oneshot a args w)
  | .C_EncryptUpdate =>
      wrapped ndebug (TOKEN_WITH_LOCK_BY_SESSION_USER_RO env .encrypt_update a args w)
  | .C_EncryptFinal =>
      wrapped ndebug (TOKEN_WITH_LOCK_BY_SESSION_USER_RO env .encrypt_final a args w)
  | .C_DecryptInit =>
      wrapped ndebug (TOKEN_WITH_LOCK_BY_SESSION_USER_RO env .decrypt_init a args w)
  | .C_Decrypt =>
      wrapped ndebug (TOKEN_WITH_LOCK_BY_SESSION_USER_RO env .decrypt_oneshot a args w)
  | .C_DecryptUpdate =>
      wrapped ndebug (TOKEN_WITH_LOCK_BY_SESSION_USER_RO env .decrypt_update a args w)
  | .C_DecryptFinal =>
      wrapped ndebug (TOKEN_WITH_LOCK_BY_SESSION_USER_RO env .decrypt_final a args w)
  | .C_DigestInit =>
      wrapped ndebug (TOKEN_WITH_LOCK_BY_SESSION_USER_RO env .digest_init a args w)
  | .C_Digest =>
      wrapped ndebug (TOKEN_WITH_LOCK_BY_SESSION_USER_RO env .digest_oneshot a args w)
  | .C_DigestUpdate =>
      wrapped ndebug (TOKEN_WITH_LOCK_BY_SESSION_USER_RO env .digest_update a args w)
  | .C_DigestKey => unsupported ndebug w
  | .C_DigestFinal =>
      wrapped ndebug (TOKEN_WITH_LOCK_BY_SESSION_USER_RO env .digest_final a args w)
  | .C_SignInit =>
      wrapped ndebug (TOKEN_WITH_LOCK_BY_SESSION_USER_RO env .sign_init a args w)
  | .C_Sign =>
      wrapped ndebug (TOKEN_WITH_LOCK_BY_SESSION_USER_RO env .sign a args w)
  | .C_SignUpdate =>
      wrapped ndebug (TOKEN_WITH_LOCK_BY_SESSION_USER_RO env .sign_update a args w)
  | .C_SignFinal =>
      wrapped ndebug (TOKEN_WITH_LOCK_BY_SESSION_USER_RO env .sign_final a args w)
  | .C_SignRecoverInit => unsupported ndebug w
  | .C_SignRecover => unsupported ndebug w
  | .C_VerifyInit =>
      wrapped ndebug (TOKEN_WITH_LOCK_BY_SESSION_USER_RO env .verify_init a args w)
  | .C_Verify =>
      wrapped ndebug (TOKEN_WITH_LOCK_BY_SESSION_USER_RO env .verify a args w)
  | .C_VerifyUpdate =>
      wrapped ndebug (TOKEN_WITH_LOCK_BY_SESSION_USER_RO env .verify_update a args w)
  | .C_VerifyFinal =>
      wrapped ndebug (TOKEN_WITH_LOCK_BY_SESSION_USER_RO env .verify_final a args w)
  | .C_VerifyRecoverInit => unsupported ndebug w
  | .C_VerifyRecover => unsupported ndebug w
  | .C_DigestEncryptUpdate => unsupported ndebug w
  | .C_DecryptDigestUpdate => unsupported ndebug w
  | .C_SignEncryptUpdate => unsupported ndebug w
  | .C_DecryptVerifyUpdate => unsupported ndebug w
  | .C_GenerateKey => unsupported ndebug w
  | .C_GenerateKeyPair =>
      wrapped ndebug (TOKEN_WITH_LOCK_BY_SESSION_USER_RO env .key_gen a args w)
  | .C_WrapKey => unsupported ndebug w
  | .C_UnwrapKey => unsupported ndebug w
  | .C_DeriveKey => unsupported ndebug w
  | .C_SeedRandom =>
      wrapped ndebug (TOKEN_WITH_LOCK_BY_SESSION_USER_RO env .seed_random a args w)
  | .C_GenerateRandom =>
      wrapped ndebug (TOKEN_WITH_LOCK_BY_SESSION_USER_RO env .random_get a args w)
  | .C_GetFunctionStatus => unsupported ndebug w
  | .C_CancelFunction => unsupported ndebug w

/-! ## Classification of the entry points -/

/-- The four forms a body in `pkcs11.c` takes. -/
inductive Shape where
  | direct (f : Internal)
  | unsupported
  | by_slot (f : Internal)
  | by_session (keep_ctx : Bool) (a : AuthFn) (f : Internal)
  deriving DecidableEq, Repr

/-- The meaning of each form, in terms of the macros above. -/
def Shape.exec {S : Type} (sh : Shape) (env : Env S) (ndebug : Bool)
    (a : Nat) (args : Args) (w : World S) : Result S :=
  match sh with
  | .direct f => direct_call env ndebug f (a :: args) w
  | .unsupported => Pkcs11.unsupported ndebug w
  | .by_slot f => wrapped ndebug (TOKEN_WITH_LOCK_BY_SLOT env f a args w)
  | .by_session k au f =>
      wrapped ndebug (TOKEN_WITH_LOCK_BY_SESSION_gen env k au f a args w)

/-- The form of each entry point, read off its body in `run`
(`run_eq_shape` below proves the two agree). -/
def shape (e : EntryPoint) : Shape :=
  match e with
  | .C_Initialize => .direct .general_init
  | .C_Finalize => .direct .general_finalize
  | .C_GetInfo => .direct .general_get_info
  | .C_GetFunctionList => .direct .general_get_func_list
  | .C_GetSlotList => .direct .slot_get_list
  | .C_GetSlotInfo => .direct .slot_get_info
  | .C_GetTokenInfo => .by_slot .token_get_info
  | .C_GetMechanismList => .direct .slot_mechanism_list_get
  | .C_GetMechanismInfo => .direct .slot_mechanism_info_get
  | .C_OpenSession => .direct .session_open
  | .C_CloseSession => .direct .session_close
  | .C_CloseAllSessions => .direct .session_closeall
  | .C_GetSessionInfo => .by_session true .auth_min_ro_pub .session_get_info
  | .C_Login => .by_session false .auth_min_ro_pub .session_login
  | .C_Logout => .by_session false .auth_any_logged_in .session_logout
  | .C_GetAttributeValue => .by_session false .auth_min_ro_pub .object_get_attributes
  | .C_FindObjectsInit => .by_session false .auth_min_ro_pub .object_find_init
  | .C_FindObjects => .by_session false .auth_min_ro_pub .object_find
  | .C_FindObjectsFinal => .by_session false .auth_min_ro_pub .object_find_final
  | .C_EncryptInit => .by_session false .auth_min_ro_user .encrypt_init
  | .C_Encrypt => .by_session false .auth_min_ro_user .encrypt_oneshot
  | .C_EncryptUpdate => .by_session false .auth_min_ro_user .encrypt_update
  | .C_EncryptFinal => .by_session false .auth_min_ro_user .encrypt_final
  | .C_DecryptInit => .by_session false .auth_min_ro_user .decrypt_init
  | .C_Decrypt => .by_session false .auth_min_ro_user .decrypt_oneshot
  | .C_DecryptUpdate => .by_session false .auth_min_ro_user .decrypt_update
  | .C_DecryptFinal => .by_session false .auth_min_ro_user .decrypt_final
  | .C_DigestInit => .by_session false .auth_min_ro_user .digest_init
  | .C_Digest => .by_session false .auth_min_ro_user .digest_oneshot
  | .C_DigestUpdate => .by_session false .auth_min_ro_user .digest_update
  | .C_DigestFinal => .by_session false .auth_min_ro_user .digest_final
  | .C_SignInit => .by_session false .auth_min_ro_user .sign_init
  | .C_Sign => .by_session false .auth_min_ro_user .sign
  | .C_SignUpdate => .by_session false .auth_min_ro_user .sign_update
  | .C_SignFinal => .by_session false .auth_min_ro_user .sign_final
  | .C_VerifyInit => .by_session false .auth_min_ro_user .verify_init
  | .C_Verify => .by_session false .auth_min_ro_user .verify
  | .C_VerifyUpdate => .by_session false .auth_min_ro_user .verify_update
  | .C_VerifyFinal => .by_session false .auth_min_ro_user .verify_final
  | .C_GenerateKeyPair => .by_session false .auth_min_ro_user .key_gen
  | .C_SeedRandom => .by_session false .auth_min_ro_user .seed_random
  | .C_GenerateRandom => .by_session false .auth_min_ro_user .random_get
  | _ => .unsupported

/-- The entry points whose body uses `TOKEN_WITH_LOCK_BY_SESSION_USER_RO`,
that is, the ones gated by `auth_min_ro_user`. -/
def gated_min_ro_user : List EntryPoint :=
  [.C_EncryptInit, .C_Encrypt, .C_EncryptUpdate, .C_EncryptFinal,
   .C_DecryptInit, .C_Decrypt, .C_DecryptUpdate, .C_DecryptFinal,
   .C_DigestInit, .C_Digest, .C_DigestUpdate, .C_DigestFinal,
   .C_SignInit, .C_Sign, .C_SignUpdate, .C_SignFinal,
   .C_VerifyInit, .C_Verify, .C_VerifyUpdate, .C_VerifyFinal,
   .C_GenerateKeyPair, .C_SeedRandom, .C_GenerateRandom]

/-- The entry points for key wrapping, unwrapping and derivation, object
creation, copy and destruction, operation-state save and restore, combined
digest-and-cipher updates, and PIN initialisation and change. -/
def unsupported_stubs : List EntryPoint :=
  [.C_WrapKey, .C_UnwrapKey, .C_DeriveKey,
   .C_CreateObject, .C_CopyObject, .C_DestroyObject,
   .C_GetOperationState, .C_SetOperationState,
   .C_DigestEncryptUpdate, .C_DecryptDigestUpdate,
   .C_SignEncryptUpdate, .C_DecryptVerifyUpdate,
   .C_InitPIN, .C_SetPIN]

/-- The metadata queries that take a slot identifier and are not handed to
`TOKEN_WITH_LOCK_BY_SLOT`, each with the internal function it calls. -/
def slot_queries_direct : List (EntryPoint × Internal) :=
  [(.C_GetSlotInfo, .slot_get_info),
   (.C_GetMechanismList, .slot_mechanism_list_get),
   (.C_GetMechanismInfo, .slot_mechanism_info_get)]

/-- Whether an event is a lock operation on a token. -/
def Event.is_lock_op : Event → Bool
  | .token_lock _ => true
  | .token_unlock _ => true
  | _ => false

/-- Whether an event is a call of an internal function. -/
def Event.is_internal : Event → Bool
  | .userfunc _ _ _ _ => true
  | .direct _ _ => true
  | _ => false

/-- Whether an event is an evaluation of an authentication predicate. -/
def Event.is_auth : Event → Bool
  | .authfn _ _ => true
  | _ => false

/-! ## A reference environment

A small concrete library state, used to run the entry points on concrete
inputs. -/

/-- One row of the Session Table: handle, owning token, context, and the
authentication state held in the context. -/
structure RefSession where
  handle : CK_SESSION_HANDLE
  tok : Tok
  ctx : Ctx
  state : CK_STATE
  deriving DecidableEq, Repr

/-- A concrete library state: the initialisation flag, the Token Registry,
the Session Table, and the status the internal functions answer with. -/
structure RefState where
  initialized : Bool
  slots : List (CK_SLOT_ID × Tok)
  sessions : List RefSession
  answer : CK_RV
  deriving DecidableEq, Repr

/-- Modelled from the spec: the status of a call made before the library is
initialised (`pkcs11.h` is not among the sources; standard value). -/
def CKR_CRYPTOKI_NOT_INITIALIZED : CK_RV := 0x190

/-- A stand-in for the internal operations, whose sources are not among the
files: every one of them answers the status `answer` kept in the state and
changes nothing.  It serves to run the dispatch layer on concrete inputs. -/
def ref_userfunc (_f : Internal) (_t : Tok) (_ctx : Option Ctx) (_args : Args)
    (s : RefState) : CK_RV × RefState :=
  (s.answer, s)

/-- Modelled from the spec: the Token Registry and the Session Table
(`slot.c`, `session.c` and `general.c` are not among the sources).
`slot_get_token` and `session_lookup` are table lookups, the latter failing
with "invalid session handle"; `session_ctx_state_get` reads the state stored
with the context; the initialisation check passes once the library is
initialised.  `locks` chooses whether `session_lookup` locks the token. -/
def refEnv (locks : Bool) : Env RefState where
  check_is_init := fun s =>
    if s.initialized then none else some CKR_CRYPTOKI_NOT_INITIALIZED
  slot_get_token := fun slot s =>
    (s.slots.find? (fun p => p.1 = slot)).map (fun p => p.2)
  session_lookup := fun h s =>
    match s.sessions.find? (fun x => x.handle = h) with
    | some x => (CKR_OK, x.tok, x.ctx)
    | none => (CKR_SESSION_HANDLE_INVALID, 0, 0)
  lookup_locks := locks
  session_ctx_state_get := fun c s =>
    match s.sessions.find? (fun x => x.ctx = c) with
    | some x => x.state
    | none => CKS_RO_PUBLIC_SESSION
  userfunc := ref_userfunc
  direct := fun _ _ s => (s.answer, s)

/-- A library state with one token (`7`, in slot `0`) and three sessions on
it: session `1` is public, sessions `2` and `3` have the user logged in. -/
def refState (answer : CK_RV) : RefState :=
  { initialized := true
    slots := [(0, 7)]
    sessions := [⟨1, 7, 11, CKS_RO_PUBLIC_SESSION⟩,
                 ⟨2, 7, 12, CKS_RO_USER_FUNCTIONS⟩,
                 ⟨3, 7, 13, CKS_RW_USER_FUNCTIONS⟩]
    answer := answer }

/-- The state `refState` with no token lock held. -/
def refWorld (answer : CK_RV) : World RefState :=
  { locked := fun _ => false, st := refState answer }

/-! ## The by-session macros over a lookup that changes the state

In `Env` the lookup of the Session Table only answers.  The two functions
below are the same macros and entry points with the lookup given apart, as a
function that may also change the library state; `run_eff_pure` shows that with
a lookup that changes nothing they are `run`. -/

/-- The macros `__TOKEN_WITH_LOCK_BY_SESSION` and
`__TOKEN_WITH_LOCK_BY_SESSION_KEEP_CTX`, as `TOKEN_WITH_LOCK_BY_SESSION_gen`,
with `session_lookup` given by `lookup`: status, the out-parameters `t` and
`ctx`, and the state the lookup leaves. -/
def TOKEN_WITH_LOCK_BY_SESSION_eff {S : Type} (env : Env S)
    (lookup : CK_SESSION_HANDLE → S → (CK_RV × Tok × Ctx) × S) (keep_ctx : Bool)
    (authfn : AuthFn) (userfunc : Internal)
    (session : CK_SESSION_HANDLE) (args : Args) (w : World S) : Step S :=
  match env.check_is_init w.st with
  | some rv => { flow := .returned rv, trace := [.check_is_init], world := w }
  | none =>
    let l := lookup session w.st
    let rv := l.1.1
    let t := l.1.2.1
    let ctx := l.1.2.2
    let w0 : World S := { w with st := l.2 }
    if rv ≠ CKR_OK then
      { flow := .returned rv,
        trace := [.check_is_init, .session_lookup session], world := w0 }
    else
      let w1 := after_lookup env t w0
      let rv := authfn.eval env ctx w1.st
      if rv ≠ CKR_OK then
        { flow := .returned rv,
          trace := [.check_is_init, .session_lookup session, .authfn authfn ctx,
                    .token_unlock t],
          world := token_unlock t w1 }
      else
        let c : Option Ctx := if keep_ctx then some ctx else none
        let r := env.userfunc userfunc t c args w1.st
        let w2 : World S := { w1 with st := r.2 }
        { flow := .fallthrough r.1,
          trace := [.check_is_init, .session_lookup session, .authfn authfn ctx,
                    .userfunc userfunc t c args, .token_unlock t],
          world := token_unlock t w2 }

/-- The entry points of `pkcs11.c` with `session_lookup` given by `lookup`:
the by-session ones go through `TOKEN_WITH_LOCK_BY_SESSION_eff`, the others
make no lookup and are as in `run`. -/
def run_eff {S : Type} (env : Env S)
    (lookup : CK_SESSION_HANDLE → S → (CK_RV × Tok × Ctx) × S) (ndebug : Bool)
    (e : EntryPoint) (a : Nat) (args : Args) (w : World S) : Result S :=
  match shape e with
  | .by_session k au f =>
      wrapped ndebug (TOKEN_WITH_LOCK_BY_SESSION_eff env lookup k au f a args w)
  | _ => run env ndebug e a args w

/-! ## The Session Table and the Operation Lifecycle Tracker of the spec -/

/-- Every entry point runs the form `shape` gives it. -/
theorem run_eq_shape {S : Type} (env : Env S) (ndebug : Bool) (e : EntryPoint)
    (a : Nat) (args : Args) (w : World S) :
    run env ndebug e a args w = (shape e).exec env ndebug a args w := by
  cases e <;> rfl

theorem after_lookup_st {S : Type} (env : Env S) (t : Tok) (w : World S) :
    (after_lookup env t w).st = w.st := by
  unfold after_lookup
  split <;> rfl

theorem token_unlock_locked {S : Type} (t : Tok) (w : World S) :
    (token_unlock t w).locked t = false := by
  simp [token_unlock]

theorem token_unlock_st {S : Type} (t : Tok) (w : World S) :
    (token_unlock t w).st = w.st := rfl

theorem token_lock_st {S : Type} (t : Tok) (w : World S) :
    (token_lock t w).st = w.st := rfl

/-- An authentication predicate answers `CKR_OK` or `CKR_USER_NOT_LOGGED_IN`. -/
theorem auth_eval_range {S : Type} (a : AuthFn) (env : Env S) (ctx : Ctx) (s : S) :
    a.eval env ctx s = CKR_OK ∨ a.eval env ctx s = CKR_USER_NOT_LOGGED_IN := by
  cases a
  · left; rfl
  · simp only [AuthFn.eval, auth_min_ro_user]
    split_ifs <;> simp
  · simp only [AuthFn.eval, auth_any_logged_in]
    split_ifs <;> simp

/-- The by-session macros when `session_lookup` fails. -/
theorem by_session_lookup_failed {S : Type} (env : Env S) (k : Bool) (a : AuthFn)
    (f : Internal) (session : CK_SESSION_HANDLE) (args : Args) (w : World S)
    (hinit : env.check_is_init w.st = none)
    (hfail : (env.session_lookup session w.st).1 ≠ CKR_OK) :
    TOKEN_WITH_LOCK_BY_SESSION_gen env k a f session args w =
      { flow := .returned (env.session_lookup session w.st).1,
        trace := [.check_is_init, .session_lookup session],
        world := w } := by
  simp [TOKEN_WITH_LOCK_BY_SESSION_gen, hinit, hfail]

/-- The by-session macros when the lookup succeeds and the predicate denies. -/
theorem by_session_denied {S : Type} (env : Env S) (k : Bool) (a : AuthFn)
    (f : Internal) (session : CK_SESSION_HANDLE) (args : Args) (w : World S)
    (t : Tok) (ctx : Ctx)
    (hinit : env.check_is_init w.st = none)
    (hlook : env.session_lookup session w.st = (CKR_OK, t, ctx))
    (hdeny : a.eval env ctx w.st ≠ CKR_OK) :
    TOKEN_WITH_LOCK_BY_SESSION_gen env k a f session args w =
      { flow := .returned (a.eval env ctx w.st),
        trace := [.check_is_init, .session_lookup session, .authfn a ctx,
                  .token_unlock t],
        world := token_unlock t (after_lookup env t w) } := by
  simp [TOKEN_WITH_LOCK_BY_SESSION_gen, hinit, hlook, after_lookup_st, hdeny]

/-- The by-session macros when the lookup succeeds and the predicate admits. -/
theorem by_session_admitted {S : Type} (env : Env S) (k : Bool) (a : AuthFn)
    (f : Internal) (session : CK_SESSION_HANDLE) (args : Args) (w : World S)
    (t : Tok) (ctx : Ctx)
    (hinit : env.check_is_init w.st = none)
    (hlook : env.session_lookup session w.st = (CKR_OK, t, ctx))
    (hpass : a.eval env ctx w.st = CKR_OK) :
    TOKEN_WITH_LOCK_BY_SESSION_gen env k a f session args w =
      { flow := .fallthrough
          (env.userfunc f t (if k then some ctx else none) args w.st).1,
        trace := [.check_is_init, .session_lookup session, .authfn a ctx,
                  .userfunc f t (if k then some ctx else none) args,
                  .token_unlock t],
        world := token_unlock t
          { after_lookup env t w with
            st := (env.userfunc f t (if k then some ctx else none) args w.st).2 } } := by
  simp [TOKEN_WITH_LOCK_BY_SESSION_gen, hinit, hlook, after_lookup_st, hpass]

/-- The entry points of `gated_min_ro_user` are the by-session ones gated by
`auth_min_ro_user`, none of which keeps the context. -/
theorem gated_min_ro_user_shape (e : EntryPoint) (he : e ∈ gated_min_ro_user) :
    ∃ f, shape e = .by_session false .auth_min_ro_user f := by
  simp only [gated_min_ro_user, List.mem_cons, List.mem_singleton, List.not_mem_nil,
    or_false] at he
  rcases he with h | h | h | h | h | h | h | h | h | h | h | h | h | h | h | h | h | h | h |
    h | h | h | h <;> subst h <;> exact ⟨_, rfl⟩

/-- With assertions compiled out, `TRACE_RET` returns its argument. -/
theorem TRACE_RET_ndebug (rv : CK_RV) : TRACE_RET true rv = Outcome.ret rv := by
  simp [TRACE_RET]

/-- A status other than `CKR_FUNCTION_NOT_SUPPORTED` is returned by `TRACE_RET`. -/
theorem TRACE_RET_of_ne (ndebug : Bool) (rv : CK_RV)
    (h : rv ≠ CKR_FUNCTION_NOT_SUPPORTED) : TRACE_RET ndebug rv = Outcome.ret rv := by
  simp [TRACE_RET, h]

/-- What `TRACE_RET` returns in either build, when it returns. -/
theorem TRACE_RET_returns (ndebug : Bool) (rv : CK_RV)
    (h : rv ≠ CKR_FUNCTION_NOT_SUPPORTED ∨ ndebug = true) :
    TRACE_RET ndebug rv = Outcome.ret rv := by
  rcases h with h | h
  · exact TRACE_RET_of_ne ndebug rv h
  · subst h; exact TRACE_RET_ndebug rv

/-! ## Denial of a public session -/

/-- C1: on a session handle that resolves to a session whose authentication
state is public (read-only or read-write), every entry point gated by
`auth_min_ro_user` returns `CKR_USER_NOT_LOGGED_IN`, calls no internal
function and leaves the library state as it was, and the lock of the
session's token is not held when the call returns. -/
theorem C1_public_session_is_denied {S : Type} (env : Env S) (ndebug : Bool)
    (e : EntryPoint) (session : CK_SESSION_HANDLE) (args : Args) (w : World S)
    (t : Tok) (ctx : Ctx)
    (he : e ∈ gated_min_ro_user)
    (hinit : env.check_is_init w.st = none)
    (hlook : env.session_lookup session w.st = (CKR_OK, t, ctx))
    (hpub : env.session_ctx_state_get ctx w.st = CKS_RO_PUBLIC_SESSION ∨
            env.session_ctx_state_get ctx w.st = CKS_RW_PUBLIC_SESSION) :
    (run env ndebug e session args w).out = Outcome.ret CKR_USER_NOT_LOGGED_IN ∧
    (∀ ev ∈ (run env ndebug e session args w).trace, ev.is_internal = false) ∧
    (run env ndebug e session args w).world.st = w.st ∧
    (run env ndebug e session args w).world.locked t = false := by
  obtain ⟨f, hf⟩ := gated_min_ro_user_shape e he
  have hval : AuthFn.auth_min_ro_user.eval env ctx w.st = CKR_USER_NOT_LOGGED_IN := by
    simp only [AuthFn.eval, auth_min_ro_user]
    rcases hpub with h | h <;> rw [h] <;> decide
  have hdeny : AuthFn.auth_min_ro_user.eval env ctx w.st ≠ CKR_OK := by
    rw [hval]; decide
  rw [run_eq_shape, hf]
  simp only [Shape.exec]
  rw [by_session_denied env false _ f session args w t ctx hinit hlook hdeny, hval]
  refine ⟨rfl, ?_, ?_, ?_⟩
  · intro ev hev
    simp only [wrapped, List.mem_cons, List.mem_singleton, List.not_mem_nil, or_false] at hev
    rcases hev with h | h | h | h <;> subst h <;> rfl
  · simp [wrapped, token_unlock_st, after_lookup_st]
  · simp [wrapped, token_unlock_locked]

/-- Witness for C1: `C_DigestFinal` on the public session `1` of the
reference state. -/
theorem C1_public_session_is_denied_witness :
    EntryPoint.C_DigestFinal ∈ gated_min_ro_user ∧
    (refEnv true).check_is_init (refWorld 0).st = none ∧
    (refEnv true).session_lookup 1 (refWorld 0).st = (CKR_OK, 7, 11) ∧
    ((run (refEnv true) false .C_DigestFinal 1 [40, 41] (refWorld 0)).out
        = Outcome.ret CKR_USER_NOT_LOGGED_IN ∧
     (∀ ev ∈ (run (refEnv true) false .C_DigestFinal 1 [40, 41] (refWorld 0)).trace,
        ev.is_internal = false) ∧
     (run (refEnv true) false .C_DigestFinal 1 [40, 41] (refWorld 0)).world.st
        = (refWorld 0).st ∧
     (run (refEnv true) false .C_DigestFinal 1 [40, 41] (refWorld 0)).world.locked 7
        = false) :=
  ⟨by decide, rfl, rfl,
   C1_public_session_is_denied (refEnv true) false .C_DigestFinal 1 [40, 41] (refWorld 0)
     7 11 (by decide) rfl rfl (Or.inl rfl)⟩

/-! ## The decision table of the Auth Gate -/

/-- C2: for every value of the session state, `auth_min_ro_pub` answers
`CKR_OK`; `auth_min_ro_user` answers `CKR_OK` exactly when the state is
`CKS_RO_USER_FUNCTIONS` or `CKS_RW_USER_FUNCTIONS`; `auth_any_logged_in`
answers `CKR_OK` exactly when the state is one of those two or
`CKS_RW_SO_FUNCTIONS`; and whenever one of them does not answer `CKR_OK` it
answers `CKR_USER_NOT_LOGGED_IN`. -/
theorem C2_auth_gate_decision_table {S : Type} (env : Env S) (ctx : Ctx) (s : S) :
    auth_min_ro_pub env ctx s = CKR_OK ∧
    (auth_min_ro_user env ctx s = CKR_OK ↔
      (env.session_ctx_state_get ctx s = CKS_RO_USER_FUNCTIONS ∨
       env.session_ctx_state_get ctx s = CKS_RW_USER_FUNCTIONS)) ∧
    (auth_min_ro_user env ctx s = CKR_OK ∨
      auth_min_ro_user env ctx s = CKR_USER_NOT_LOGGED_IN) ∧
    (auth_any_logged_in env ctx s = CKR_OK ↔
      (env.session_ctx_state_get ctx s = CKS_RO_USER_FUNCTIONS ∨
       env.session_ctx_state_get ctx s = CKS_RW_USER_FUNCTIONS ∨
       env.session_ctx_state_get ctx s = CKS_RW_SO_FUNCTIONS)) ∧
    (auth_any_logged_in env ctx s = CKR_OK ∨
      auth_any_logged_in env ctx s = CKR_USER_NOT_LOGGED_IN) := by
  have hne : CKR_USER_NOT_LOGGED_IN ≠ CKR_OK := by decide
  refine ⟨rfl, ?_, ?_, ?_, ?_⟩
  · simp only [auth_min_ro_user]
    split_ifs <;> simp [*, hne]
  · exact auth_eval_range .auth_min_ro_user env ctx s
  · simp only [auth_any_logged_in]
    split_ifs <;> simp [*, hne]
  · exact auth_eval_range .auth_any_logged_in env ctx s

/-! ## Failed resolution -/

/-- C3: when `session_lookup` fails on the session handle, every entry point
built on one of the two by-session macros returns the status the lookup
reported; the only calls it made are the initialisation check and the lookup,
so the authentication predicate is not evaluated, no internal function is
called, no token is locked or unlocked, and the state is unchanged. -/
theorem C3_invalid_session_handle {S : Type} (env : Env S) (ndebug : Bool)
    (e : EntryPoint) (k : Bool) (a : AuthFn) (f : Internal)
    (session : CK_SESSION_HANDLE) (args : Args) (w : World S)
    (he : shape e = .by_session k a f)
    (hinit : env.check_is_init w.st = none)
    (hfail : (env.session_lookup session w.st).1 ≠ CKR_OK) :
    run env ndebug e session args w =
      { out := Outcome.ret (env.session_lookup session w.st).1,
        trace := [.check_is_init, .session_lookup session],
        world := w } := by
  rw [run_eq_shape, he]
  simp only [Shape.exec]
  rw [by_session_lookup_failed env k a f session args w hinit hfail]
  rfl

/-- Witness for C3: `C_GetSessionInfo` on the unknown handle `9` of the
reference state reports `CKR_SESSION_HANDLE_INVALID`. -/
theorem C3_invalid_session_handle_witness :
    shape .C_GetSessionInfo = .by_session true .auth_min_ro_pub .session_get_info ∧
    (refEnv true).check_is_init (refWorld 0).st = none ∧
    ((refEnv true).session_lookup 9 (refWorld 0).st).1 = CKR_SESSION_HANDLE_INVALID ∧
    ((refEnv true).session_lookup 9 (refWorld 0).st).1 ≠ CKR_OK ∧
    run (refEnv true) false .C_GetSessionInfo 9 [40] (refWorld 0) =
      { out := Outcome.ret ((refEnv true).session_lookup 9 (refWorld 0).st).1,
        trace := [.check_is_init, .session_lookup 9],
        world := refWorld 0 } :=
  ⟨rfl, rfl, rfl, by decide,
   C3_invalid_session_handle (refEnv true) false .C_GetSessionInfo true .auth_min_ro_pub
     .session_get_info 9 [40] (refWorld 0) rfl rfl (by decide)⟩

/-- C4: when the slot identifier has no bound token, `C_GetTokenInfo` returns
`CKR_SLOT_ID_INVALID`; the only calls it made are the initialisation check and
`slot_get_token`, so no token is locked or unlocked, the Session Table is not
consulted, no authentication predicate is evaluated, `token_get_info` is not
called, and the state is unchanged. -/
theorem C4_invalid_slot {S : Type} (env : Env S) (ndebug : Bool)
    (slotID : CK_SLOT_ID) (args : Args) (w : World S)
    (hinit : env.check_is_init w.st = none)
    (hnone : env.slot_get_token slotID w.st = none) :
    run env ndebug .C_GetTokenInfo slotID args w =
      { out := Outcome.ret CKR_SLOT_ID_INVALID,
        trace := [.check_is_init, .slot_get_token slotID],
        world := w } := by
  simp [run, wrapped, TOKEN_WITH_LOCK_BY_SLOT, hinit, hnone]

/-- Witness for C4: slot `5` of the reference state has no token. -/
theorem C4_invalid_slot_witness :
    (refEnv true).check_is_init (refWorld 0).st = none ∧
    (refEnv true).slot_get_token 5 (refWorld 0).st = none ∧
    run (refEnv true) false .C_GetTokenInfo 5 [40] (refWorld 0) =
      { out := Outcome.ret CKR_SLOT_ID_INVALID,
        trace := [.check_is_init, .slot_get_token 5],
        world := refWorld 0 } :=
  ⟨rfl, rfl, C4_invalid_slot (refEnv true) false 5 [40] (refWorld 0) rfl rfl⟩

/-! ## Logout on a public session -/

/-- C5: on a session whose authentication state is public, `C_Logout` fails:
it returns `CKR_USER_NOT_LOGGED_IN`, which is not `CKR_OK`; it calls no
internal function, so `session_logout` is not invoked; and the authentication
state of the session is the same after the call as before. -/
theorem C5_logout_on_public_session_fails {S : Type} (env : Env S) (ndebug : Bool)
    (session : CK_SESSION_HANDLE) (args : Args) (w : World S) (t : Tok) (ctx : Ctx)
    (hinit : env.check_is_init w.st = none)
    (hlook : env.session_lookup session w.st = (CKR_OK, t, ctx))
    (hpub : env.session_ctx_state_get ctx w.st = CKS_RO_PUBLIC_SESSION ∨
            env.session_ctx_state_get ctx w.st = CKS_RW_PUBLIC_SESSION) :
    (run env ndebug .C_Logout session args w).out = Outcome.ret CKR_USER_NOT_LOGGED_IN ∧
    (run env ndebug .C_Logout session args w).out ≠ Outcome.ret CKR_OK ∧
    (∀ ev ∈ (run env ndebug .C_Logout session args w).trace, ev.is_internal = false) ∧
    env.session_ctx_state_get ctx (run env ndebug .C_Logout session args w).world.st
      = env.session_ctx_state_get ctx w.st := by
  have hval : AuthFn.auth_any_logged_in.eval env ctx w.st = CKR_USER_NOT_LOGGED_IN := by
    simp only [AuthFn.eval, auth_any_logged_in]
    rcases hpub with h | h <;> rw [h] <;> decide
  have hdeny : AuthFn.auth_any_logged_in.eval env ctx w.st ≠ CKR_OK := by
    rw [hval]; decide
  have hrun : run env ndebug .C_Logout session args w =
      wrapped ndebug (TOKEN_WITH_LOCK_BY_SESSION_gen env false .auth_any_logged_in
        .session_logout session args w) := rfl
  rw [hrun, by_session_denied env false _ _ session args w t ctx hinit hlook hdeny, hval]
  refine ⟨rfl, by simp [wrapped, CKR_USER_NOT_LOGGED_IN, CKR_OK], ?_, ?_⟩
  · intro ev hev
    simp only [wrapped, List.mem_cons, List.mem_singleton, List.not_mem_nil, or_false] at hev
    rcases hev with h | h | h | h <;> subst h <;> rfl
  · simp [wrapped, token_unlock_st, after_lookup_st]

/-- Witness for C5: `C_Logout` on the public session `1` of the reference
state. -/
theorem C5_logout_on_public_session_fails_witness :
    (refEnv true).check_is_init (refWorld 0).st = none ∧
    (refEnv true).session_lookup 1 (refWorld 0).st = (CKR_OK, 7, 11) ∧
    (refEnv true).session_ctx_state_get 11 (refWorld 0).st = CKS_RO_PUBLIC_SESSION ∧
    ((run (refEnv true) false .C_Logout 1 [] (refWorld 0)).out
        = Outcome.ret CKR_USER_NOT_LOGGED_IN ∧
     (run (refEnv true) false .C_Logout 1 [] (refWorld 0)).out ≠ Outcome.ret CKR_OK ∧
     (∀ ev ∈ (run (refEnv true) false .C_Logout 1 [] (refWorld 0)).trace,
        ev.is_internal = false) ∧
     (refEnv true).session_ctx_state_get 11
        (run (refEnv true) false .C_Logout 1 [] (refWorld 0)).world.st
        = (refEnv true).session_ctx_state_get 11 (refWorld 0).st) :=
  ⟨rfl, rfl, rfl,
   C5_logout_on_public_session_fails (refEnv true) false 1 [] (refWorld 0) 7 11
     rfl rfl (Or.inl rfl)⟩

/-! ## The unsupported entry points -/

/-- C6, as the code has it: each of the fourteen unsupported entry points
makes no call at all (no resolution of a slot or session, no lock or unlock)
and leaves the state unchanged, for every argument tuple; its status is
`CKR_FUNCTION_NOT_SUPPORTED`, which `TRACE_RET` returns to the caller when
assertions are compiled out, while with assertions enabled the call stops at
the `assert(0)` of `TRACE_RET`. -/
theorem C6_unsupported_stub_makes_no_call {S : Type} (env : Env S) (ndebug : Bool)
    (e : EntryPoint) (a : Nat) (args : Args) (w : World S)
    (he : e ∈ unsupported_stubs) :
    run env ndebug e a args w =
      { out := if ndebug then Outcome.ret CKR_FUNCTION_NOT_SUPPORTED
               else Outcome.assert_fail,
        trace := [],
        world := w } := by
  simp only [unsupported_stubs, List.mem_cons, List.mem_singleton, List.not_mem_nil,
    or_false] at he
  rcases he with h | h | h | h | h | h | h | h | h | h | h | h | h | h <;> subst h <;>
    simp [run, unsupported, TRACE_RET]

/-- Witness for C6: `C_WrapKey` in the reference state, assertions compiled
out. -/
theorem C6_unsupported_stub_makes_no_call_witness :
    EntryPoint.C_WrapKey ∈ unsupported_stubs ∧
    run (refEnv true) true .C_WrapKey 2 [40, 41, 42, 43, 44] (refWorld 0) =
      { out := if true then Outcome.ret CKR_FUNCTION_NOT_SUPPORTED
               else Outcome.assert_fail,
        trace := [],
        world := refWorld 0 } :=
  ⟨by decide,
   C6_unsupported_stub_makes_no_call (refEnv true) true .C_WrapKey 2 [40, 41, 42, 43, 44]
     (refWorld 0) (by decide)⟩

/-- C6 fails as stated: compiled with assertions enabled, `C_InitPIN` does not
return `CKR_FUNCTION_NOT_SUPPORTED` to its caller, it stops at the `assert(0)`
of `TRACE_RET`. -/
theorem C6_stub_stops_at_assert :
    EntryPoint.C_InitPIN ∈ unsupported_stubs ∧
    (run (refEnv true) false .C_InitPIN 2 [40, 4] (refWorld 0)).out = Outcome.assert_fail ∧
    (run (refEnv true) false .C_InitPIN 2 [40, 4] (refWorld 0)).out
      ≠ Outcome.ret CKR_FUNCTION_NOT_SUPPORTED := by
  decide

/-! ## Lock discipline of the by-session wrappers -/

/-- C7, as the code has it: for an entry point built on one of the two
by-session macros and a session handle the lookup resolves, the macro never
calls `token_lock`; the lock operations it performs are exactly one
`token_unlock` of the session's token, whether the predicate denies or admits.
When the predicate denies, the calls are the check, the lookup, the predicate
and that `token_unlock`, the internal function is not invoked, and the entry
point returns `CKR_USER_NOT_LOGGED_IN`.  When it admits, the internal function
is invoked exactly once, `token_unlock` follows exactly once whatever the
function returned, and the function's status goes to `TRACE_RET`, which
returns it unchanged unless it is `CKR_FUNCTION_NOT_SUPPORTED` with assertions
enabled. -/
theorem C7_by_session_only_unlocks {S : Type} (env : Env S) (ndebug : Bool)
    (e : EntryPoint) (k : Bool) (a : AuthFn) (f : Internal)
    (session : CK_SESSION_HANDLE) (args : Args) (w : World S) (t : Tok) (ctx : Ctx)
    (he : shape e = .by_session k a f)
    (hinit : env.check_is_init w.st = none)
    (hlook : env.session_lookup session w.st = (CKR_OK, t, ctx)) :
    (run env ndebug e session args w).trace.filter Event.is_lock_op
      = [Event.token_unlock t] ∧
    (run env ndebug e session args w).world.locked t = false ∧
    (a.eval env ctx w.st ≠ CKR_OK →
      run env ndebug e session args w =
        { out := Outcome.ret CKR_USER_NOT_LOGGED_IN,
          trace := [.check_is_init, .session_lookup session, .authfn a ctx,
                    .token_unlock t],
          world := token_unlock t (after_lookup env t w) }) ∧
    (a.eval env ctx w.st = CKR_OK →
      run env ndebug e session args w =
        { out := TRACE_RET ndebug
            (env.userfunc f t (if k then some ctx else none) args w.st).1,
          trace := [.check_is_init, .session_lookup session, .authfn a ctx,
                    .userfunc f t (if k then some ctx else none) args,
                    .token_unlock t],
          world := token_unlock t
            { after_lookup env t w with
              st := (env.userfunc f t (if k then some ctx else none) args w.st).2 } }) ∧
    (a.eval env ctx w.st = CKR_OK →
      ((env.userfunc f t (if k then some ctx else none) args w.st).1
          ≠ CKR_FUNCTION_NOT_SUPPORTED ∨ ndebug = true) →
      (run env ndebug e session args w).out =
        Outcome.ret (env.userfunc f t (if k then some ctx else none) args w.st).1) := by
  rw [run_eq_shape, he]
  simp only [Shape.exec]
  by_cases hd : a.eval env ctx w.st = CKR_OK
  · rw [by_session_admitted env k a f session args w t ctx hinit hlook hd]
    refine ⟨rfl, ?_, fun h => absurd hd h, fun _ => rfl, fun _ h => ?_⟩
    · simp [wrapped, token_unlock_locked]
    · simp only [wrapped]
      exact TRACE_RET_returns ndebug _ h
  · rw [by_session_denied env k a f session args w t ctx hinit hlook hd]
    have hval : a.eval env ctx w.st = CKR_USER_NOT_LOGGED_IN :=
      (auth_eval_range a env ctx w.st).resolve_left hd
    refine ⟨rfl, ?_, fun _ => ?_, fun h => absurd h hd, fun h => absurd h hd⟩
    · simp [wrapped, token_unlock_locked]
    · simp [wrapped, hval]

/-- Witness for C7: `C_DigestInit` on session `2` of the reference state,
which has the user logged in. -/
theorem C7_by_session_only_unlocks_witness :
    shape .C_DigestInit = .by_session false .auth_min_ro_user .digest_init ∧
    (refEnv false).check_is_init (refWorld 0).st = none ∧
    (refEnv false).session_lookup 2 (refWorld 0).st = (CKR_OK, 7, 12) ∧
    (run (refEnv false) false .C_DigestInit 2 [30] (refWorld 0)).trace.filter
      Event.is_lock_op = [Event.token_unlock 7] ∧
    (run (refEnv false) false .C_DigestInit 2 [30] (refWorld 0)).world.locked 7 = false :=
  ⟨rfl, rfl, rfl,
   (C7_by_session_only_unlocks (refEnv false) false .C_DigestInit false .auth_min_ro_user
     .digest_init 2 [30] (refWorld 0) 7 12 rfl rfl rfl).1,
   (C7_by_session_only_unlocks (refEnv false) false .C_DigestInit false .auth_min_ro_user
     .digest_init 2 [30] (refWorld 0) 7 12 rfl rfl rfl).2.1⟩

/-- C7 fails as stated: on the public session `1` the denied `C_DigestInit`
does perform a lock operation on the token, a `token_unlock`; and on session
`2`, which is admitted, `C_DigestInit` runs `digest_init` and succeeds without
the wrapper calling `token_lock`. -/
theorem C7_wrapper_unlocks_on_denial_and_never_locks :
    (run (refEnv true) false .C_DigestInit 1 [30] (refWorld 0)).out
      = Outcome.ret CKR_USER_NOT_LOGGED_IN ∧
    Event.token_unlock 7 ∈ (run (refEnv true) false .C_DigestInit 1 [30] (refWorld 0)).trace ∧
    (run (refEnv true) false .C_DigestInit 2 [30] (refWorld 0)).out = Outcome.ret CKR_OK ∧
    Event.userfunc .digest_init 7 none [30]
      ∈ (run (refEnv true) false .C_DigestInit 2 [30] (refWorld 0)).trace ∧
    Event.token_lock 7 ∉ (run (refEnv true) false .C_DigestInit 2 [30] (refWorld 0)).trace := by
  decide

/-! ## The by-slot wrapper -/

/-- C8, as the code has it: when the slot identifier resolves to a token `t`,
`C_GetTokenInfo` makes exactly the calls `check_is_init`, `slot_get_token`,
`token_lock t`, `token_get_info` on `t` with the caller's arguments,
`token_unlock t`, in this order, whatever `token_get_info` returns; the lock
is free afterwards and the state is the one `token_get_info` left.  The status
of `token_get_info` then goes to `TRACE_RET`, which returns it unchanged unless
it is `CKR_FUNCTION_NOT_SUPPORTED` with assertions enabled. -/
theorem C8_by_slot_lock_call_unlock {S : Type} (env : Env S) (ndebug : Bool)
    (slotID : CK_SLOT_ID) (args : Args) (w : World S) (t : Tok)
    (hinit : env.check_is_init w.st = none)
    (hsome : env.slot_get_token slotID w.st = some t) :
    run env ndebug .C_GetTokenInfo slotID args w =
      { out := TRACE_RET ndebug (env.userfunc .token_get_info t none args w.st).1,
        trace := [.check_is_init, .slot_get_token slotID, .token_lock t,
                  .userfunc .token_get_info t none args, .token_unlock t],
        world := token_unlock t
          { token_lock t w with
            st := (env.userfunc .token_get_info t none args w.st).2 } } ∧
    (run env ndebug .C_GetTokenInfo slotID args w).trace.filter Event.is_lock_op
      = [Event.token_lock t, Event.token_unlock t] ∧
    (run env ndebug .C_GetTokenInfo slotID args w).world.locked t = false ∧
    (((env.userfunc .token_get_info t none args w.st).1 ≠ CKR_FUNCTION_NOT_SUPPORTED
        ∨ ndebug = true) →
      (run env ndebug .C_GetTokenInfo slotID args w).out =
        Outcome.ret (env.userfunc .token_get_info t none args w.st).1) := by
  have hrun : run env ndebug .C_GetTokenInfo slotID args w =
      { out := TRACE_RET ndebug (env.userfunc .token_get_info t none args w.st).1,
        trace := [.check_is_init, .slot_get_token slotID, .token_lock t,
                  .userfunc .token_get_info t none args, .token_unlock t],
        world := token_unlock t
          { token_lock t w with
            st := (env.userfunc .token_get_info t none args w.st).2 } } := by
    simp [run, wrapped, TOKEN_WITH_LOCK_BY_SLOT, hinit, hsome, token_lock_st]
  rw [hrun]
  refine ⟨rfl, rfl, ?_, fun h => ?_⟩
  · simp [token_unlock_locked]
  · exact TRACE_RET_returns ndebug _ h

/-- Witness for C8: slot `0` of the reference state holds token `7`, and
`token_get_info` fails with `CKR_GENERAL_ERROR`. -/
theorem C8_by_slot_lock_call_unlock_witness :
    (refEnv true).check_is_init (refWorld CKR_GENERAL_ERROR).st = none ∧
    (refEnv true).slot_get_token 0 (refWorld CKR_GENERAL_ERROR).st = some 7 ∧
    (run (refEnv true) false .C_GetTokenInfo 0 [40] (refWorld CKR_GENERAL_ERROR)).trace.filter
      Event.is_lock_op = [Event.token_lock 7, Event.token_unlock 7] ∧
    (run (refEnv true) false .C_GetTokenInfo 0 [40] (refWorld CKR_GENERAL_ERROR)).world.locked 7
      = false :=
  ⟨rfl, rfl,
   (C8_by_slot_lock_call_unlock (refEnv true) false 0 [40] (refWorld CKR_GENERAL_ERROR) 7
     rfl rfl).2.1,
   (C8_by_slot_lock_call_unlock (refEnv true) false 0 [40] (refWorld CKR_GENERAL_ERROR) 7
     rfl rfl).2.2.1⟩

/-- C8 fails as stated: when `token_get_info` returns
`CKR_FUNCTION_NOT_SUPPORTED` and assertions are enabled, `C_GetTokenInfo` does
not return that status, it stops at the `assert(0)` of `TRACE_RET` (after the
lock was released). -/
theorem C8_not_supported_result_is_not_returned :
    ((refEnv true).userfunc .token_get_info 7 none [40]
      (refWorld CKR_FUNCTION_NOT_SUPPORTED).st).1 = CKR_FUNCTION_NOT_SUPPORTED ∧
    (run (refEnv true) false .C_GetTokenInfo 0 [40] (refWorld CKR_FUNCTION_NOT_SUPPORTED)).out
      = Outcome.assert_fail ∧
    (run (refEnv true) false .C_GetTokenInfo 0 [40] (refWorld CKR_FUNCTION_NOT_SUPPORTED)).out
      ≠ Outcome.ret CKR_FUNCTION_NOT_SUPPORTED ∧
    (run (refEnv true) false .C_GetTokenInfo 0 [40]
      (refWorld CKR_FUNCTION_NOT_SUPPORTED)).trace
      = [.check_is_init, .slot_get_token 0, .token_lock 7,
         .userfunc .token_get_info 7 none [40], .token_unlock 7] := by
  decide

/-! ## The metadata queries that take a slot identifier -/

/-- C9, as the code has it: of the four metadata queries only `C_GetTokenInfo`
resolves its slot identifier through `slot_get_token` and calls its internal
function between `token_lock` and `token_unlock` of the token found, with no
authentication predicate evaluated.  `C_GetSlotInfo`, `C_GetMechanismList` and
`C_GetMechanismInfo` make one call only: they hand the slot identifier and
their other arguments to `slot_get_info`, `slot_mechanism_list_get` and
`slot_mechanism_info_get`, with no resolution, no lock operation and no
authentication predicate in the dispatch layer. -/
theorem C9_slot_metadata_queries {S : Type} (env : Env S) (ndebug : Bool)
    (slotID : CK_SLOT_ID) (args : Args) (w : World S) (t : Tok)
    (p : EntryPoint × Internal)
    (hp : p ∈ slot_queries_direct)
    (hinit : env.check_is_init w.st = none)
    (hsome : env.slot_get_token slotID w.st = some t) :
    (run env ndebug .C_GetTokenInfo slotID args w).trace
      = [.check_is_init, .slot_get_token slotID, .token_lock t,
         .userfunc .token_get_info t none args, .token_unlock t] ∧
    (∀ ev ∈ (run env ndebug .C_GetTokenInfo slotID args w).trace, ev.is_auth = false) ∧
    (run env ndebug p.1 slotID args w).trace = [.direct p.2 (slotID :: args)] ∧
    (run env ndebug p.1 slotID args w).world.locked = w.locked := by
  have htr : (run env ndebug .C_GetTokenInfo slotID args w).trace
      = [.check_is_init, .slot_get_token slotID, .token_lock t,
         .userfunc .token_get_info t none args, .token_unlock t] := by
    simp [run, wrapped, TOKEN_WITH_LOCK_BY_SLOT, hinit, hsome]
  refine ⟨htr, ?_, ?_, ?_⟩
  · intro ev hev
    rw [htr] at hev
    simp only [List.mem_cons, List.mem_singleton, List.not_mem_nil, or_false] at hev
    rcases hev with h | h | h | h | h <;> subst h <;> rfl
  · simp only [slot_queries_direct, List.mem_cons, List.mem_singleton, List.not_mem_nil,
      or_false] at hp
    rcases hp with h | h | h <;> subst h <;> rfl
  · simp only [slot_queries_direct, List.mem_cons, List.mem_singleton, List.not_mem_nil,
      or_false] at hp
    rcases hp with h | h | h <;> subst h <;> rfl

/-- Witness for C9: slot `0` of the reference state, with `C_GetMechanismList`
as the query that is not wrapped. -/
theorem C9_slot_metadata_queries_witness :
    (EntryPoint.C_GetMechanismList, Internal.slot_mechanism_list_get) ∈ slot_queries_direct ∧
    (refEnv true).check_is_init (refWorld 0).st = none ∧
    (refEnv true).slot_get_token 0 (refWorld 0).st = some 7 ∧
    (run (refEnv true) false .C_GetTokenInfo 0 [40, 41] (refWorld 0)).trace
      = [.check_is_init, .slot_get_token 0, .token_lock 7,
         .userfunc .token_get_info 7 none [40, 41], .token_unlock 7] ∧
    (run (refEnv true) false .C_GetMechanismList 0 [40, 41] (refWorld 0)).trace
      = [.direct .slot_mechanism_list_get [0, 40, 41]] :=
  ⟨by decide, rfl, rfl,
   (C9_slot_metadata_queries (refEnv true) false 0 [40, 41] (refWorld 0) 7
     (.C_GetMechanismList, .slot_mechanism_list_get) (by decide) rfl rfl).1,
   (C9_slot_metadata_queries (refEnv true) false 0 [40, 41] (refWorld 0) 7
     (.C_GetMechanismList, .slot_mechanism_list_get) (by decide) rfl rfl).2.2.1⟩

/-- C9 fails as stated: `C_GetSlotInfo` on slot `0`, which holds token `7`,
calls `slot_get_info` with the slot identifier and nothing else; the Token
Registry is not consulted and the token is neither locked nor unlocked. -/
theorem C9_slot_info_is_not_wrapped :
    (refEnv true).slot_get_token 0 (refWorld 0).st = some 7 ∧
    (run (refEnv true) false .C_GetSlotInfo 0 [40] (refWorld 0)).trace
      = [.direct .slot_get_info [0, 40]] ∧
    Event.slot_get_token 0 ∉ (run (refEnv true) false .C_GetSlotInfo 0 [40] (refWorld 0)).trace ∧
    Event.token_lock 7 ∉ (run (refEnv true) false .C_GetSlotInfo 0 [40] (refWorld 0)).trace ∧
    Event.token_unlock 7 ∉ (run (refEnv true) false .C_GetSlotInfo 0 [40] (refWorld 0)).trace := by
  decide

/-! ## The assertion of `TRACE_RET` -/

/-- A wrapped body ends at `assert(0)` exactly when assertions are enabled and
the macro left `CKR_FUNCTION_NOT_SUPPORTED` in `rv` without returning. -/
theorem wrapped_assert_iff {S : Type} (ndebug : Bool) (m : Step S) :
    (wrapped ndebug m).out = Outcome.assert_fail ↔
      (ndebug = false ∧ m.flow = Flow.fallthrough CKR_FUNCTION_NOT_SUPPORTED) := by
  unfold wrapped TRACE_RET
  cases hm : m.flow with
  | returned rv => simp
  | fallthrough rv =>
    by_cases h : rv = CKR_FUNCTION_NOT_SUPPORTED
    · cases ndebug <;> simp [h]
    · simp [h]

/-- The by-slot macro leaves a status in `rv` exactly when it called the
internal function, and the status is what that call returned. -/
theorem by_slot_fallthrough_iff {S : Type} (env : Env S) (f : Internal)
    (slot : CK_SLOT_ID) (args : Args) (w : World S) (rv : CK_RV) :
    (TOKEN_WITH_LOCK_BY_SLOT env f slot args w).flow = Flow.fallthrough rv ↔
      ∃ t c, Event.userfunc f t c args ∈ (TOKEN_WITH_LOCK_BY_SLOT env f slot args w).trace ∧
        (env.userfunc f t c args w.st).1 = rv := by
  unfold TOKEN_WITH_LOCK_BY_SLOT
  cases hi : env.check_is_init w.st with
  | some r => simp
  | none =>
    cases hs : env.slot_get_token slot w.st with
    | none => simp
    | some t =>
      simp only [token_lock_st, List.mem_cons, List.mem_singleton, List.not_mem_nil,
        Flow.fallthrough.injEq]
      constructor
      · intro h
        exact ⟨t, none, by simp, h⟩
      · rintro ⟨t', c', hmem, hrv⟩
        simp at hmem
        obtain ⟨rfl, rfl⟩ := hmem
        exact hrv

/-- The by-session macros leave a status in `rv` exactly when they called the
internal function, and the status is what that call returned. -/
theorem by_session_fallthrough_iff {S : Type} (env : Env S) (k : Bool) (a : AuthFn)
    (f : Internal) (session : CK_SESSION_HANDLE) (args : Args) (w : World S) (rv : CK_RV) :
    (TOKEN_WITH_LOCK_BY_SESSION_gen env k a f session args w).flow = Flow.fallthrough rv ↔
      ∃ t c, Event.userfunc f t c args
          ∈ (TOKEN_WITH_LOCK_BY_SESSION_gen env k a f session args w).trace ∧
        (env.userfunc f t c args w.st).1 = rv := by
  unfold TOKEN_WITH_LOCK_BY_SESSION_gen
  cases hi : env.check_is_init w.st with
  | some r => simp
  | none =>
    by_cases hl : (env.session_lookup session w.st).1 = CKR_OK
    · by_cases hg : a.eval env (env.session_lookup session w.st).2.2 w.st = CKR_OK
      · simp only [after_lookup_st, hl, hg, ne_eq, not_true_eq_false, if_false,
          List.mem_cons, List.mem_singleton, List.not_mem_nil, Flow.fallthrough.injEq]
        constructor
        · intro h
          exact ⟨_, _, by simp, h⟩
        · rintro ⟨t', c', hmem, hrv⟩
          simp at hmem
          obtain ⟨rfl, rfl⟩ := hmem
          exact hrv
      · simp [after_lookup_st, hl, hg]
    · simp [hl]

/-- C11: for an entry point wired through the by-slot or a by-session macro,
compiled with assertions enabled, the call ends at the `assert(0)` of
`TRACE_RET` if and only if the macro called the internal function and that call
returned `CKR_FUNCTION_NOT_SUPPORTED`; this holds on every path, whatever the
initialisation check, the resolution and the predicate answer.  Compiled with
assertions disabled there is no assertion to reach.  Hence, when the internal
function does not return `CKR_FUNCTION_NOT_SUPPORTED`, the entry point returns
a status in either build. -/
theorem C11_assert_reached_iff_not_supported {S : Type} (env : Env S) (ndebug : Bool)
    (e : EntryPoint) (f : Internal) (a0 : Nat) (args : Args) (w : World S)
    (he : shape e = .by_slot f ∨ ∃ k a, shape e = .by_session k a f) :
    ((run env false e a0 args w).out = Outcome.assert_fail ↔
      ∃ t c, Event.userfunc f t c args ∈ (run env false e a0 args w).trace ∧
        (env.userfunc f t c args w.st).1 = CKR_FUNCTION_NOT_SUPPORTED) ∧
    (run env true e a0 args w).out ≠ Outcome.assert_fail ∧
    ((∀ t c, (env.userfunc f t c args w.st).1 ≠ CKR_FUNCTION_NOT_SUPPORTED) →
      ∃ rv, (run env ndebug e a0 args w).out = Outcome.ret rv) := by
  have key : ∀ nd : Bool, (run env nd e a0 args w).out = Outcome.assert_fail ↔
      (nd = false ∧ ∃ t c, Event.userfunc f t c args ∈ (run env nd e a0 args w).trace ∧
        (env.userfunc f t c args w.st).1 = CKR_FUNCTION_NOT_SUPPORTED) := by
    intro nd
    rw [run_eq_shape]
    rcases he with h | ⟨k, a, h⟩
    · rw [h]
      simp only [Shape.exec]
      rw [wrapped_assert_iff, by_slot_fallthrough_iff]
      rfl
    · rw [h]
      simp only [Shape.exec]
      rw [wrapped_assert_iff, by_session_fallthrough_iff]
      rfl
  refine ⟨?_, ?_, ?_⟩
  · rw [key false]
    simp
  · intro h
    have := ((key true).mp h).1
    exact absurd this (by decide)
  · intro hno
    cases hout : (run env ndebug e a0 args w).out with
    | ret rv => exact ⟨rv, rfl⟩
    | assert_fail =>
      obtain ⟨-, t, c, -, hrv⟩ := (key ndebug).mp hout
      exact absurd hrv (hno t c)

/-- Witness for C11: `C_GetTokenInfo` on slot `0` of the reference state, where
`token_get_info` answers `CKR_OK`. -/
theorem C11_assert_reached_iff_not_supported_witness :
    (shape .C_GetTokenInfo = .by_slot .token_get_info ∨
      ∃ k a, shape .C_GetTokenInfo = .by_session k a .token_get_info) ∧
    (∀ t c, ((refEnv true).userfunc .token_get_info t c [40] (refWorld 0).st).1
      ≠ CKR_FUNCTION_NOT_SUPPORTED) ∧
    ∃ rv, (run (refEnv true) false .C_GetTokenInfo 0 [40] (refWorld 0)).out = Outcome.ret rv :=
  ⟨Or.inl rfl,
   fun _ _ => show (0 : Nat) ≠ 0x54 by decide,
   (C11_assert_reached_iff_not_supported (refEnv true) false .C_GetTokenInfo .token_get_info
     0 [40] (refWorld 0) (Or.inl rfl)).2.2 (fun _ _ => show (0 : Nat) ≠ 0x54 by decide)⟩

/-! ## What the internal function is given -/

/-- C12: for an entry point built on `__TOKEN_WITH_LOCK_BY_SESSION` and two
session handles that resolve to the same token and are both admitted by the
entry point's predicate, the internal function is invoked once with the token
and the caller's arguments and with no session context, the same invocation
for both handles; outcome and final state are the same too.  Among the
by-session entry points `C_GetSessionInfo` is the only one whose macro keeps
the context, and it hands the context of the session to `session_get_info`. -/
theorem C12_invocation_is_independent_of_session {S : Type} (env : Env S) (ndebug : Bool)
    (e : EntryPoint) (a : AuthFn) (f : Internal) (s1 s2 : CK_SESSION_HANDLE)
    (args : Args) (w : World S) (t : Tok) (c1 c2 : Ctx)
    (he : shape e = .by_session false a f)
    (hinit : env.check_is_init w.st = none)
    (h1 : env.session_lookup s1 w.st = (CKR_OK, t, c1))
    (h2 : env.session_lookup s2 w.st = (CKR_OK, t, c2))
    (hg1 : a.eval env c1 w.st = CKR_OK)
    (hg2 : a.eval env c2 w.st = CKR_OK) :
    (run env ndebug e s1 args w).trace.filter Event.is_internal
      = [Event.userfunc f t none args] ∧
    (run env ndebug e s2 args w).trace.filter Event.is_internal
      = [Event.userfunc f t none args] ∧
    (run env ndebug e s1 args w).out = (run env ndebug e s2 args w).out ∧
    (run env ndebug e s1 args w).world = (run env ndebug e s2 args w).world ∧
    (∀ e2 k2 a2 f2, shape e2 = .by_session k2 a2 f2 →
      (k2 = true ↔ e2 = EntryPoint.C_GetSessionInfo)) ∧
    (run env ndebug .C_GetSessionInfo s1 args w).trace.filter Event.is_internal
      = [Event.userfunc .session_get_info t (some c1) args] := by
  have hkeep : run env ndebug .C_GetSessionInfo s1 args w =
      wrapped ndebug (TOKEN_WITH_LOCK_BY_SESSION_gen env true .auth_min_ro_pub
        .session_get_info s1 args w) := rfl
  rw [hkeep, by_session_admitted env true .auth_min_ro_pub .session_get_info s1 args w t c1
    hinit h1 rfl]
  rw [run_eq_shape, run_eq_shape, he]
  simp only [Shape.exec]
  rw [by_session_admitted env false a f s1 args w t c1 hinit h1 hg1,
    by_session_admitted env false a f s2 args w t c2 hinit h2 hg2]
  refine ⟨rfl, rfl, rfl, rfl, ?_, rfl⟩
  intro e2 k2 a2 f2 h
  cases e2 <;> simp [shape] at h <;> simp [h]

/-- Witness for C12: `C_Sign` on sessions `2` and `3` of the reference state,
both on token `7` with the user logged in. -/
theorem C12_invocation_is_independent_of_session_witness :
    shape .C_Sign = .by_session false .auth_min_ro_user .sign ∧
    (refEnv true).check_is_init (refWorld 0).st = none ∧
    (refEnv true).session_lookup 2 (refWorld 0).st = (CKR_OK, 7, 12) ∧
    (refEnv true).session_lookup 3 (refWorld 0).st = (CKR_OK, 7, 13) ∧
    AuthFn.auth_min_ro_user.eval (refEnv true) 12 (refWorld 0).st = CKR_OK ∧
    AuthFn.auth_min_ro_user.eval (refEnv true) 13 (refWorld 0).st = CKR_OK ∧
    (run (refEnv true) false .C_Sign 2 [40, 41, 42, 43] (refWorld 0)).trace.filter
      Event.is_internal = [Event.userfunc .sign 7 none [40, 41, 42, 43]] ∧
    (run (refEnv true) false .C_Sign 3 [40, 41, 42, 43] (refWorld 0)).trace.filter
      Event.is_internal = [Event.userfunc .sign 7 none [40, 41, 42, 43]] :=
  ⟨rfl, rfl, rfl, rfl, rfl, rfl,
   (C12_invocation_is_independent_of_session (refEnv true) false .C_Sign .auth_min_ro_user
     .sign 2 3 [40, 41, 42, 43] (refWorld 0) 7 12 13 rfl rfl rfl rfl rfl rfl).1,
   (C12_invocation_is_independent_of_session (refEnv true) false .C_Sign .auth_min_ro_user
     .sign 2 3 [40, 41, 42, 43] (refWorld 0) 7 12 13 rfl rfl rfl rfl rfl rfl).2.1⟩

/-! ## Operation state and sessions, on the library of the spec -/

/-- With a lookup that only answers, `run_eff` is `run`. -/
theorem run_eff_pure {S : Type} (env : Env S) (ndebug : Bool) (e : EntryPoint)
    (a : Nat) (args : Args) (w : World S) :
    run_eff env (fun h s => (env.session_lookup h s, s)) ndebug e a args w
      = run env ndebug e a args w := by
  rw [run_eq_shape]
  unfold run_eff
  cases hs : shape e <;> simp only [Shape.exec, ← run_eq_shape] <;>
    first
    | rfl
    | (rw [run_eq_shape, hs]; rfl)

end Pkcs11
